import Mathlib

/-!
Verification of the `desub` dynamic-value decoding engine
(`src/desub-current/src/value/mod.rs` and
`src/desub-current/src/value/deserializer.rs`).

The data model (`Value`, `ValueDef`, `Composite`, `Variant`, `Primitive`,
`BitSequence`) and the deserializer dispatch functions are shallow
embeddings of the Rust source.  Machine integers carry no arithmetic in
this code, so `u8`/`u16`/... payloads are modelled as `Nat` and the signed
ones as `Int`; they are opaque payloads at this layer.  Serde's visitor
double dispatch is modelled by an explicit `Visitor` record of callbacks,
and the closed set of element deserializers that actually occur is the
`Deser` inductive.
-/

/-- Opaque error type from `deserializer.rs`: a human readable message. -/
structure Error where
  message : String
deriving DecidableEq, Repr

namespace Error

/-- Corresponds to `Error::from_string`. -/
def from_string (s : String) : Error := ⟨s⟩

/-- Corresponds to `Error::from_str` (borrowed static string). -/
def from_str (s : String) : Error := ⟨s⟩

end Error

/-- The primitive scalar payloads (`Primitive` in `mod.rs`).  Unsigned
payloads are `Nat`, signed ones `Int`; `U256`/`I256` carry 32 raw bytes
(`[u8; 32]` in the source), modelled as a list of length 32. -/
inductive Primitive where
  | bool (v : Bool)
  | char (v : Char)
  | str (v : String)
  | u8 (v : Nat)
  | u16 (v : Nat)
  | u32 (v : Nat)
  | u64 (v : Nat)
  | u128 (v : Nat)
  | u256 (v : { l : List Nat // l.length = 32 })
  | i8 (v : Int)
  | i16 (v : Int)
  | i32 (v : Int)
  | i64 (v : Int)
  | i128 (v : Int)
  | i256 (v : { l : List Nat // l.length = 32 })

/-- A sequence of bits, `BitVec<Lsb0, u8>` from the `bitvec` crate
(`type BitSequence` in `mod.rs`).  `head` is the bit offset into the first
backing byte and `bits` the logical bit content, least significant bit
first. -/
structure BitSequence where
  head : Nat
  bits : List Bool

mutual

/-- A decoded value together with arbitrary context (`Value<T>` in
`mod.rs`). -/
inductive Value (T : Type) where
  | mk (value : ValueDef T) (context : T)

/-- The underlying shape of a value (`ValueDef<T>` in `mod.rs`). -/
inductive ValueDef (T : Type) where
  | composite (c : Composite T)
  | variant (v : Variant T)
  | bitSequence (b : BitSequence)
  | primitive (p : Primitive)

/-- A named or unnamed set of values (`Composite<T>` in `mod.rs`). -/
inductive Composite (T : Type) where
  | named (values : List (String × Value T))
  | unnamed (values : List (Value T))

/-- One variant of an enum: its name and field values (`Variant<T>` in
`mod.rs`). -/
inductive Variant (T : Type) where
  | mk (name : String) (values : Composite T)

end

/-- Projection: the shape of a `Value` (field `value` in `mod.rs`). -/
def Value.value {T : Type} : Value T → ValueDef T
  | .mk v _ => v

/-- Projection: the context of a `Value` (field `context` in `mod.rs`). -/
def Value.context {T : Type} : Value T → T
  | .mk _ c => c

/-- Projection: a variant's name (field `name` in `mod.rs`). -/
def Variant.name {T : Type} : Variant T → String
  | .mk n _ => n

/-- Projection: a variant's field values (field `values` in `mod.rs`). -/
def Variant.values {T : Type} : Variant T → Composite T
  | .mk _ vs => vs

/-- The number of values stored in a composite (`Composite::len`). -/
def Composite.len {T : Type} : Composite T → Nat
  | .named values => values.length
  | .unnamed values => values.length

/-- Is the composite empty? (`Composite::is_empty`). -/
def Composite.is_empty {T : Type} : Composite T → Bool
  | .named values => values.isEmpty
  | .unnamed values => values.isEmpty

mutual

/-- Map the context of a whole value tree (`Value::map_context`). -/
def Value.map_context {T U : Type} (f : T → U) : Value T → Value U
  | .mk v c => .mk (ValueDef.map_context f v) (f c)

/-- Map the context below a shape (`ValueDef::map_context`). -/
def ValueDef.map_context {T U : Type} (f : T → U) : ValueDef T → ValueDef U
  | .composite c => .composite (Composite.map_context f c)
  | .variant v => .variant (Variant.map_context f v)
  | .bitSequence b => .bitSequence b
  | .primitive p => .primitive p

/-- Map the context below a composite (`Composite::map_context`); the
source maps over the field vectors, which we unroll into the two list
walks below. -/
def Composite.map_context {T U : Type} (f : T → U) : Composite T → Composite U
  | .named values => .named (mapContextNamed f values)
  | .unnamed values => .unnamed (mapContextUnnamed f values)

/-- Map the context across a named field list (the `Named` arm of
`Composite::map_context`). -/
def mapContextNamed {T U : Type} (f : T → U) :
    List (String × Value T) → List (String × Value U)
  | [] => []
  | (k, v) :: rest => (k, Value.map_context f v) :: mapContextNamed f rest

/-- Map the context across an unnamed field list (the `Unnamed` arm of
`Composite::map_context`). -/
def mapContextUnnamed {T U : Type} (f : T → U) :
    List (Value T) → List (Value U)
  | [] => []
  | v :: rest => Value.map_context f v :: mapContextUnnamed f rest

/-- Map the context below a variant (`Variant::map_context`). -/
def Variant.map_context {T U : Type} (f : T → U) : Variant T → Variant U
  | .mk name values => .mk name (Composite.map_context f values)

end

/-! ## Structural skeleton

To state that `map_context` preserves structure we extract, from a value
tree, its context-free skeleton (shapes, field names, order, bit
sequences, primitive payloads) and, separately, the list of contexts in
preorder. -/

mutual

/-- Context-free skeleton of a value tree. -/
inductive ShapeTree where
  | composite (c : ShapeComposite)
  | variant (name : String) (values : ShapeComposite)
  | bitSequence (b : BitSequence)
  | primitive (p : Primitive)

/-- Context-free skeleton of a composite. -/
inductive ShapeComposite where
  | named (values : List (String × ShapeTree))
  | unnamed (values : List ShapeTree)

end

mutual

/-- Skeleton of a value. -/
def Value.shape {T : Type} : Value T → ShapeTree
  | .mk v _ => ValueDef.shape v

/-- Skeleton of a shape. -/
def ValueDef.shape {T : Type} : ValueDef T → ShapeTree
  | .composite c => .composite (Composite.shape c)
  | .variant (.mk n vs) => .variant n (Composite.shape vs)
  | .bitSequence b => .bitSequence b
  | .primitive p => .primitive p

/-- Skeleton of a composite. -/
def Composite.shape {T : Type} : Composite T → ShapeComposite
  | .named values => .named (shapeNamed values)
  | .unnamed values => .unnamed (shapeUnnamed values)

/-- Skeleton of a named field list. -/
def shapeNamed {T : Type} : List (String × Value T) → List (String × ShapeTree)
  | [] => []
  | (k, v) :: rest => (k, Value.shape v) :: shapeNamed rest

/-- Skeleton of an unnamed field list. -/
def shapeUnnamed {T : Type} : List (Value T) → List ShapeTree
  | [] => []
  | v :: rest => Value.shape v :: shapeUnnamed rest

end

mutual

/-- Preorder list of the contexts carried by a value tree. -/
def Value.contexts {T : Type} : Value T → List T
  | .mk v c => c :: ValueDef.contexts v

/-- Preorder list of the contexts below a shape. -/
def ValueDef.contexts {T : Type} : ValueDef T → List T
  | .composite c => Composite.contexts c
  | .variant (.mk _ vs) => Composite.contexts vs
  | .bitSequence _ => []
  | .primitive _ => []

/-- Preorder list of the contexts below a composite. -/
def Composite.contexts {T : Type} : Composite T → List T
  | .named values => contextsNamed values
  | .unnamed values => contextsUnnamed values

/-- Preorder contexts of a named field list. -/
def contextsNamed {T : Type} : List (String × Value T) → List T
  | [] => []
  | (_, v) :: rest => Value.contexts v ++ contextsNamed rest

/-- Preorder contexts of an unnamed field list. -/
def contextsUnnamed {T : Type} : List (Value T) → List T
  | [] => []
  | v :: rest => Value.contexts v ++ contextsUnnamed rest

end

mutual

/-- Helper: mapping the context leaves the skeleton of a value unchanged. -/
theorem value_shape_map {T U : Type} (f : T → U) :
    (v : Value T) → Value.shape (Value.map_context f v) = Value.shape v
  | .mk v _ => by
    simp only [Value.map_context, Value.shape, valuedef_shape_map f v]

/-- Helper: mapping the context leaves the skeleton of a shape unchanged. -/
theorem valuedef_shape_map {T U : Type} (f : T → U) :
    (v : ValueDef T) → ValueDef.shape (ValueDef.map_context f v) = ValueDef.shape v
  | .composite c => by
    simp only [ValueDef.map_context, ValueDef.shape, composite_shape_map f c]
  | .variant (.mk n vs) => by
    simp only [ValueDef.map_context, Variant.map_context, ValueDef.shape,
      composite_shape_map f vs]
  | .bitSequence b => by
    simp only [ValueDef.map_context]; rfl
  | .primitive p => by
    simp only [ValueDef.map_context]; rfl

/-- Helper: mapping the context leaves the skeleton of a composite
unchanged. -/
theorem composite_shape_map {T U : Type} (f : T → U) :
    (c : Composite T) → Composite.shape (Composite.map_context f c) = Composite.shape c
  | .named values => by
    simp only [Composite.map_context, Composite.shape, named_shape_map f values]
  | .unnamed values => by
    simp only [Composite.map_context, Composite.shape, unnamed_shape_map f values]

/-- Helper: mapping the context leaves named field skeletons unchanged. -/
theorem named_shape_map {T U : Type} (f : T → U) :
    (l : List (String × Value T)) → shapeNamed (mapContextNamed f l) = shapeNamed l
  | [] => by simp only [mapContextNamed]; rfl
  | (k, v) :: rest => by
    simp only [mapContextNamed, shapeNamed, value_shape_map f v, named_shape_map f rest]

/-- Helper: mapping the context leaves unnamed field skeletons unchanged. -/
theorem unnamed_shape_map {T U : Type} (f : T → U) :
    (l : List (Value T)) → shapeUnnamed (mapContextUnnamed f l) = shapeUnnamed l
  | [] => by simp only [mapContextUnnamed]; rfl
  | v :: rest => by
    simp only [mapContextUnnamed, shapeUnnamed, value_shape_map f v,
      unnamed_shape_map f rest]

end

mutual

/-- Helper: mapping the context maps the preorder context list of a value. -/
theorem value_contexts_map {T U : Type} (f : T → U) :
    (v : Value T) → Value.contexts (Value.map_context f v) = (Value.contexts v).map f
  | .mk v c => by
    simp only [Value.map_context, Value.contexts, valuedef_contexts_map f v, List.map_cons]

/-- Helper: mapping the context maps the preorder context list of a shape. -/
theorem valuedef_contexts_map {T U : Type} (f : T → U) :
    (v : ValueDef T) → ValueDef.contexts (ValueDef.map_context f v) = (ValueDef.contexts v).map f
  | .composite c => by
    simp only [ValueDef.map_context, ValueDef.contexts, composite_contexts_map f c]
  | .variant (.mk n vs) => by
    simp only [ValueDef.map_context, Variant.map_context, ValueDef.contexts,
      composite_contexts_map f vs]
  | .bitSequence b => by
    simp only [ValueDef.map_context, ValueDef.contexts, List.map_nil]
  | .primitive p => by
    simp only [ValueDef.map_context, ValueDef.contexts, List.map_nil]

/-- Helper: mapping the context maps the preorder context list of a
composite. -/
theorem composite_contexts_map {T U : Type} (f : T → U) :
    (c : Composite T) → Composite.contexts (Composite.map_context f c) = (Composite.contexts c).map f
  | .named values => by
    simp only [Composite.map_context, Composite.contexts, named_contexts_map f values]
  | .unnamed values => by
    simp only [Composite.map_context, Composite.contexts, unnamed_contexts_map f values]

/-- Helper: mapping the context maps the contexts of a named field list. -/
theorem named_contexts_map {T U : Type} (f : T → U) :
    (l : List (String × Value T)) → contextsNamed (mapContextNamed f l) = (contextsNamed l).map f
  | [] => by simp only [mapContextNamed, contextsNamed, List.map_nil]
  | (k, v) :: rest => by
    simp only [mapContextNamed, contextsNamed, value_contexts_map f v,
      named_contexts_map f rest, List.map_append]

/-- Helper: mapping the context maps the contexts of an unnamed field
list. -/
theorem unnamed_contexts_map {T U : Type} (f : T → U) :
    (l : List (Value T)) → contextsUnnamed (mapContextUnnamed f l) = (contextsUnnamed l).map f
  | [] => by simp only [mapContextUnnamed, contextsUnnamed, List.map_nil]
  | v :: rest => by
    simp only [mapContextUnnamed, contextsUnnamed, value_contexts_map f v,
      unnamed_contexts_map f rest, List.map_append]

end

mutual

/-- Helper: mapping the context through the identity returns the value
unchanged. -/
theorem value_map_id {T : Type} :
    (v : Value T) → Value.map_context (fun x => x) v = v
  | .mk v c => by
    simp only [Value.map_context, valuedef_map_id v]

/-- Helper: identity context mapping on shapes. -/
theorem valuedef_map_id {T : Type} :
    (v : ValueDef T) → ValueDef.map_context (fun x => x) v = v
  | .composite c => by
    simp only [ValueDef.map_context, composite_map_id c]
  | .variant (.mk n vs) => by
    simp only [ValueDef.map_context, Variant.map_context, composite_map_id vs]
  | .bitSequence b => by simp only [ValueDef.map_context]
  | .primitive p => by simp only [ValueDef.map_context]

/-- Helper: identity context mapping on composites. -/
theorem composite_map_id {T : Type} :
    (c : Composite T) → Composite.map_context (fun x => x) c = c
  | .named values => by
    simp only [Composite.map_context, named_map_id values]
  | .unnamed values => by
    simp only [Composite.map_context, unnamed_map_id values]

/-- Helper: identity context mapping on named field lists. -/
theorem named_map_id {T : Type} :
    (l : List (String × Value T)) → mapContextNamed (fun x => x) l = l
  | [] => by simp only [mapContextNamed]
  | (k, v) :: rest => by
    simp only [mapContextNamed, value_map_id v, named_map_id rest]

/-- Helper: identity context mapping on unnamed field lists. -/
theorem unnamed_map_id {T : Type} :
    (l : List (Value T)) → mapContextUnnamed (fun x => x) l = l
  | [] => by simp only [mapContextUnnamed]
  | v :: rest => by
    simp only [mapContextUnnamed, value_map_id v, unnamed_map_id rest]

end

/-- C1: for every value tree and every pure context mapping `f`,
`map_context f` preserves the whole structural skeleton (the `ValueDef`
variant at every node, field names, order of composite entries, variant
names, bit sequences and primitive payloads) and replaces the context at
every node (here: the preorder context list) by `f` of the old context;
in particular `map_context id` is the identity. -/
theorem map_context_preserves_structure {T U : Type} (f : T → U) (v : Value T) :
    Value.shape (Value.map_context f v) = Value.shape v ∧
    Value.contexts (Value.map_context f v) = (Value.contexts v).map f ∧
    Value.map_context (fun x => x) v = v :=
  ⟨value_shape_map f v, value_contexts_map f v, value_map_id v⟩

/-! ## Bit sequence extraction

`BitVecPieces` and the serializer state machine inside `BitVecPieces::new`
(`deserializer.rs`).  The foreign `bitvec` crate's `Serialize` impl (the
code that drives the state machine) is not part of this repository, so it
is modelled from the spec below (`BitSequence.serialize`). -/

/-- Which field of the serialized bit vector is being processed
(`enum Field` in `deserializer.rs`; named `PieceField` here because Lean
already has an algebraic `Field`). -/
inductive PieceField where
  | head
  | bits
  | data
deriving DecidableEq, Repr

/-- The data extracted from a `BitVec`, plus a cursor recording which
field a sequence access will hand out next (`struct BitVecPieces`). -/
structure BitVecPieces where
  head : Nat
  bits : Nat
  data : List Nat
  current_field : Option PieceField
deriving DecidableEq, Repr

/-- The serializer state used inside `BitVecPieces::new`
(`struct BitVecSerializer`). -/
structure BitVecSerializer where
  head : Option Nat
  bits : Option Nat
  data : List Nat
  current_field : Option PieceField
deriving DecidableEq, Repr

namespace BitVecSerializer

/-- The key dispatch of `SerializeStruct::serialize_field`: note which
field is being serialized, or fail on an unexpected field name. -/
def serialize_field_key (s : BitVecSerializer) (key : String) :
    Except Error BitVecSerializer :=
  if key = "head" then .ok { s with current_field := some .head }
  else if key = "bits" then .ok { s with current_field := some .bits }
  else if key = "data" then .ok { s with current_field := some .data }
  else .error (Error.from_string
    ("BitVec serialization encountered unexpected field \x27" ++ key ++ "\x27"))

/-- `SerializeStruct::end`: clear the current field marker. -/
def serialize_end (s : BitVecSerializer) : Except Error BitVecSerializer :=
  .ok { s with current_field := none }

/-- `Serializer::serialize_struct`: hands back the serializer itself. -/
def serialize_struct (s : BitVecSerializer) : Except Error BitVecSerializer :=
  .ok s

/-- `Serializer::serialize_seq`: only allowed while serializing the
`data` field. -/
def serialize_seq (s : BitVecSerializer) : Except Error BitVecSerializer :=
  match s.current_field with
  | some .data => .ok s
  | _ => .error (Error.from_str
      "BitVec serialization only expects serialize_seq to be called for \x27data\x27 prop")

/-- `Serializer::serialize_u8`: records the head byte, or pushes a data
byte. -/
def serialize_u8 (s : BitVecSerializer) (v : Nat) : Except Error BitVecSerializer :=
  match s.current_field with
  | some .head => .ok { s with head := some v }
  | some .data => .ok { s with data := s.data ++ [v] }
  | _ => .error (Error.from_str
      "BitVec serialization only expects serialize_u8 to be called for \x27head\x27 prop")

/-- `Serializer::serialize_u64`: records the bit count. -/
def serialize_u64 (s : BitVecSerializer) (v : Nat) : Except Error BitVecSerializer :=
  match s.current_field with
  | some .bits => .ok { s with bits := some v }
  | _ => .error (Error.from_str
      "BitVec serialization only expects serialize_u64 to be called for \x27len\x27 prop")

end BitVecSerializer

/-- Serialize each backing byte of the data buffer in order
(`SerializeSeq::serialize_element` repeatedly delegating to
`serialize_u8`). -/
def serializeDataBytes (bytes : List Nat) (s : BitVecSerializer) :
    Except Error BitVecSerializer :=
  match bytes with
  | [] => .ok s
  | b :: rest => do
    let s ← s.serialize_u8 b
    serializeDataBytes rest s

/-- The numeric value of up to eight bits, least significant first
(`Lsb0` byte packing). -/
def byteOfBits (bs : List Bool) : Nat :=
  bs.foldr (fun b acc => acc * 2 + (if b then 1 else 0)) 0

/-- Pack a bit string into backing bytes, eight bits at a time, least
significant bit first; a trailing partial byte is padded with zeros. -/
def bitsToBytes : List Bool → List Nat
  | [] => []
  | b0 :: b1 :: b2 :: b3 :: b4 :: b5 :: b6 :: b7 :: rest =>
    byteOfBits [b0, b1, b2, b3, b4, b5, b6, b7] :: bitsToBytes rest
  | l => [byteOfBits l]

/-- The backing byte buffer of a bit sequence: the first `head` bits of
the first byte are padding, then the logical bits follow, packed least
significant bit first.  Its length is the number of bytes needed to cover
`head + bits` bits. -/
def BitSequence.dataBytes (bv : BitSequence) : List Nat :=
  bitsToBytes (List.replicate bv.head false ++ bv.bits)

/-- Modelled from the spec: the foreign `bitvec` crate's `Serialize`
impl, which is outside this repository (the source points at bitvec
0.20.2 `serdes.rs`).  Per spec section 4.5 it writes exactly three
ordered fields and no others: `head` (one byte, via `serialize_u8`),
`bits` (the 64-bit total bit count, via `serialize_u64`) and `data` (the
backing byte buffer, via `serialize_seq` and one `serialize_u8` per
byte), inside a single `serialize_struct` call. -/
def BitSequence.serialize (bv : BitSequence) (s : BitVecSerializer) :
    Except Error BitVecSerializer := do
  let s ← s.serialize_struct
  let s ← s.serialize_field_key "head"
  let s ← s.serialize_u8 bv.head
  let s ← s.serialize_field_key "bits"
  let s ← s.serialize_u64 bv.bits.length
  let s ← s.serialize_field_key "data"
  let s ← s.serialize_seq
  let s ← serializeDataBytes bv.dataBytes s
  s.serialize_end

/-- Extract the pieces of a bit vector by running its serialization
against the serializer state machine (`BitVecPieces::new`). -/
def BitVecPieces.new (bit_vec : BitSequence) : Except Error BitVecPieces := do
  let se ← bit_vec.serialize ⟨none, none, [], none⟩
  match se with
  | ⟨some head, some bits, data, _⟩ =>
    .ok ⟨head, bits, data, some PieceField.head⟩
  | _ => .error (Error.from_str
      "Could not gather together the BitVec pieces required during serialization")

/-! ## The negotiation protocol

Serde's `Deserializer`/`Visitor` double dispatch is modelled explicitly.
`Deser` is the closed set of deserializers that are ever handed to a
`DeserializeSeed` by this code: the value model types themselves, plus
the primitive `u8`/`u64`/byte-vector deserializers produced by
`into_deserializer()` inside the bit-vector sequence access.  A
`Visitor` is the record of callbacks a target supplies; `SeqAcc` is the
closed set of `SeqAccess` implementations (serde's `SeqDeserializer`
over a list of elements, and `BitVecPieces`). -/

inductive Deser (T : Type) where
  | value (v : Value T)
  | composite (c : Composite T)
  | variant (v : Variant T)
  | primitive (p : Primitive)
  | u8Deser (v : Nat)
  | u64Deser (v : Nat)
  | bytesDeser (bs : List Nat)

/-- The closed set of `SeqAccess` implementations handed to `visit_seq`
by this code. -/
inductive SeqAcc (T : Type) where
  | seqDeser (items : List (Deser T))
  | bitVecPieces (p : BitVecPieces)

/-- The callbacks a target-side visitor provides (serde's `Visitor`
trait, restricted to the callbacks this code can ever invoke). -/
structure Visitor (T : Type) (α : Type) where
  visitBool : Bool → Except Error α
  visitChar : Char → Except Error α
  visitString : String → Except Error α
  visitU8 : Nat → Except Error α
  visitU16 : Nat → Except Error α
  visitU32 : Nat → Except Error α
  visitU64 : Nat → Except Error α
  visitU128 : Nat → Except Error α
  visitI8 : Int → Except Error α
  visitI16 : Int → Except Error α
  visitI32 : Int → Except Error α
  visitI64 : Int → Except Error α
  visitI128 : Int → Except Error α
  visitBytes : List Nat → Except Error α
  visitByteBuf : List Nat → Except Error α
  visitUnit : Except Error α
  visitSeq : SeqAcc T → Except Error α
  visitMap : List (String × Value T) → Except Error α
  visitEnum : Variant T → Except Error α

/-- One step of `SeqAccess for BitVecPieces::next_element_seed`: hand
out the current field's deserializer and advance the cursor; `data` is
taken out of the state (`std::mem::take`) when handed out. -/
def BitVecPieces.next_element {T : Type} (p : BitVecPieces) :
    Option (Deser T) × BitVecPieces :=
  match p.current_field with
  | some .head => (some (.u8Deser p.head), { p with current_field := some .bits })
  | some .bits => (some (.u64Deser p.bits), { p with current_field := some .data })
  | some .data => (some (.bytesDeser p.data), { p with data := [], current_field := none })
  | none => (none, p)

/-- One step of a sequence access: the next element's deserializer, if
any, and the rest of the access. -/
def SeqAcc.next_element {T : Type} : SeqAcc T → Option (Deser T) × SeqAcc T
  | .seqDeser [] => (none, .seqDeser [])
  | .seqDeser (d :: rest) => (some d, .seqDeser rest)
  | .bitVecPieces p =>
    match p.next_element with
    | (e, p2) => (e, .bitVecPieces p2)

/-! ### Composite's Deserializer impl (`deserializer.rs`) -/

/-- `Composite::deserialize_any`: named composites visit a map over the
entries, unnamed ones a sequence over the values. -/
def Composite.deserialize_any {T α : Type} (c : Composite T) (visitor : Visitor T α) :
    Except Error α :=
  match c with
  | .named values => visitor.visitMap values
  | .unnamed values => visitor.visitSeq (.seqDeser (values.map Deser.value))

/-- `Composite::deserialize_seq`: both flavours visit a sequence, a
named composite dropping its names. -/
def Composite.deserialize_seq {T α : Type} (c : Composite T) (visitor : Visitor T α) :
    Except Error α :=
  match c with
  | .named values => visitor.visitSeq (.seqDeser (values.map fun kv => Deser.value kv.2))
  | .unnamed values => visitor.visitSeq (.seqDeser (values.map Deser.value))

/-- `Composite::deserialize_tuple`: requires the exact length, then
visits a sequence (names, if present, are ignored). -/
def Composite.deserialize_tuple {T α : Type} (c : Composite T) (len : Nat)
    (visitor : Visitor T α) : Except Error α :=
  match c with
  | .named values =>
    if values.length ≠ len then
      .error (Error.from_string
        ("Cannot deserialize composite of length " ++ toString values.length ++
          " into tuple of length " ++ toString len))
    else
      visitor.visitSeq (.seqDeser (values.map fun kv => Deser.value kv.2))
  | .unnamed values =>
    if values.length ≠ len then
      .error (Error.from_string
        ("Cannot deserialize composite of length " ++ toString values.length ++
          " into tuple of length " ++ toString len))
    else
      visitor.visitSeq (.seqDeser (values.map Deser.value))

/-- `Composite::deserialize_tuple_struct`: same as a tuple. -/
def Composite.deserialize_tuple_struct {T α : Type} (c : Composite T) (_name : String)
    (len : Nat) (visitor : Visitor T α) : Except Error α :=
  c.deserialize_tuple len visitor

/-- `Composite::deserialize_unit`: only an empty composite is a unit. -/
def Composite.deserialize_unit {T α : Type} (c : Composite T) (visitor : Visitor T α) :
    Except Error α :=
  if c.is_empty then visitor.visitUnit
  else .error (Error.from_str "Cannot deserialize non-empty Composite into a unit value")

/-- `Composite::deserialize_unit_struct`: same as unit. -/
def Composite.deserialize_unit_struct {T α : Type} (c : Composite T) (_name : String)
    (visitor : Visitor T α) : Except Error α :=
  c.deserialize_unit visitor

/-- `Composite::deserialize_newtype_struct`: hand the whole composite
over as a one-element sequence. -/
def Composite.deserialize_newtype_struct {T α : Type} (c : Composite T) (_name : String)
    (visitor : Visitor T α) : Except Error α :=
  visitor.visitSeq (.seqDeser [Deser.composite c])

/-- The byte collection inside the `Named` arm of
`Composite::deserialize_byte_buf`: every entry's value must be a
`Primitive::U8`, collected in order, short-circuiting on the first
offender. -/
def collectU8sNamed {T : Type} : List (String × Value T) → Except Error (List Nat)
  | [] => .ok []
  | (_n, v) :: rest =>
    match v.value with
    | .primitive (.u8 byte) => (collectU8sNamed rest).map (fun bs => byte :: bs)
    | _ => .error (Error.from_str
        "Cannot deserialize composite that is not entirely U8\x27s into bytes")

/-- The byte collection inside the `Unnamed` arm of
`Composite::deserialize_byte_buf`. -/
def collectU8sUnnamed {T : Type} : List (Value T) → Except Error (List Nat)
  | [] => .ok []
  | v :: rest =>
    match v.value with
    | .primitive (.u8 byte) => (collectU8sUnnamed rest).map (fun bs => byte :: bs)
    | _ => .error (Error.from_str
        "Cannot deserialize composite that is not entirely U8\x27s into bytes")

/-- `Composite::deserialize_byte_buf`: all entries must be `U8`
primitives; the visitor receives the bytes in entry order. -/
def Composite.deserialize_byte_buf {T α : Type} (c : Composite T) (visitor : Visitor T α) :
    Except Error α :=
  match c with
  | .named values => do
    let bytes ← collectU8sNamed values
    visitor.visitByteBuf bytes
  | .unnamed values => do
    let bytes ← collectU8sUnnamed values
    visitor.visitByteBuf bytes

/-- `Composite::deserialize_bytes`: same as `deserialize_byte_buf`. -/
def Composite.deserialize_bytes {T α : Type} (c : Composite T) (visitor : Visitor T α) :
    Except Error α :=
  c.deserialize_byte_buf visitor

/-- `Composite` forwards the `struct` hint to `deserialize_any`
(its `forward_to_deserialize_any!` list). -/
def Composite.deserialize_struct {T α : Type} (c : Composite T) (_name : String)
    (_fields : List String) (visitor : Visitor T α) : Except Error α :=
  c.deserialize_any visitor

/-- `Composite` forwards the `map` hint to `deserialize_any`. -/
def Composite.deserialize_map {T α : Type} (c : Composite T) (visitor : Visitor T α) :
    Except Error α :=
  c.deserialize_any visitor

/-! ### Variant's Deserializer impl -/

/-- `Variant::deserialize_any`: present the variant as a serde enum. -/
def Variant.deserialize_any {T α : Type} (v : Variant T) (visitor : Visitor T α) :
    Except Error α :=
  visitor.visitEnum v

/-- `Variant::deserialize_enum`: same, ignoring the requested enum name
and variant list. -/
def Variant.deserialize_enum {T α : Type} (v : Variant T) (_name : String)
    (_variants : List String) (visitor : Visitor T α) : Except Error α :=
  visitor.visitEnum v

/-- `Variant::deserialize_newtype_struct`: hand the whole variant over
as a one-element sequence. -/
def Variant.deserialize_newtype_struct {T α : Type} (v : Variant T) (_name : String)
    (visitor : Visitor T α) : Except Error α :=
  visitor.visitSeq (.seqDeser [Deser.variant v])

/-- `Variant::deserialize_tuple`: delegates to the fields composite. -/
def Variant.deserialize_tuple {T α : Type} (v : Variant T) (len : Nat)
    (visitor : Visitor T α) : Except Error α :=
  v.values.deserialize_tuple len visitor

/-- `Variant::deserialize_tuple_struct`: delegates to the fields
composite. -/
def Variant.deserialize_tuple_struct {T α : Type} (v : Variant T) (name : String)
    (len : Nat) (visitor : Visitor T α) : Except Error α :=
  v.values.deserialize_tuple_struct name len visitor

/-- `Variant::deserialize_unit_struct`: delegates to the fields
composite. -/
def Variant.deserialize_unit_struct {T α : Type} (v : Variant T) (name : String)
    (visitor : Visitor T α) : Except Error α :=
  v.values.deserialize_unit_struct name visitor

/-- `Variant::deserialize_unit`: delegates to the fields composite. -/
def Variant.deserialize_unit {T α : Type} (v : Variant T) (visitor : Visitor T α) :
    Except Error α :=
  v.values.deserialize_unit visitor

/-- `Variant::deserialize_struct`: delegates to the fields composite. -/
def Variant.deserialize_struct {T α : Type} (v : Variant T) (name : String)
    (fields : List String) (visitor : Visitor T α) : Except Error α :=
  v.values.deserialize_struct name fields visitor

/-- `Variant::deserialize_map`: delegates to the fields composite. -/
def Variant.deserialize_map {T α : Type} (v : Variant T) (visitor : Visitor T α) :
    Except Error α :=
  v.values.deserialize_map visitor

/-- `Variant::deserialize_seq`: delegates to the fields composite. -/
def Variant.deserialize_seq {T α : Type} (v : Variant T) (visitor : Visitor T α) :
    Except Error α :=
  v.values.deserialize_seq visitor

/-! ### Primitive's Deserializer impl -/

/-- `Primitive::deserialize_any`: each primitive supplies its payload to
exactly the matching scalar callback; the 256-bit variants supply their
32 raw bytes to the bytes callback. -/
def Primitive.deserialize_any {T α : Type} (p : Primitive) (visitor : Visitor T α) :
    Except Error α :=
  match p with
  | .bool v => visitor.visitBool v
  | .char v => visitor.visitChar v
  | .str v => visitor.visitString v
  | .u8 v => visitor.visitU8 v
  | .u16 v => visitor.visitU16 v
  | .u32 v => visitor.visitU32 v
  | .u64 v => visitor.visitU64 v
  | .u128 v => visitor.visitU128 v
  | .u256 v => visitor.visitBytes v.val
  | .i8 v => visitor.visitI8 v
  | .i16 v => visitor.visitI16 v
  | .i32 v => visitor.visitI32 v
  | .i64 v => visitor.visitI64 v
  | .i128 v => visitor.visitI128 v
  | .i256 v => visitor.visitBytes v.val

/-- `Primitive::deserialize_newtype_struct`: hand the primitive over as
a one-element sequence. -/
def Primitive.deserialize_newtype_struct {T α : Type} (p : Primitive) (_name : String)
    (visitor : Visitor T α) : Except Error α :=
  visitor.visitSeq (.seqDeser [Deser.primitive p])

/-! ### BitVecPieces' Deserializer impl -/

/-- `BitVecPieces::deserialize_any`: hand each field back as part of a
sequence. -/
def BitVecPieces.deserialize_any {T α : Type} (p : BitVecPieces) (visitor : Visitor T α) :
    Except Error α :=
  visitor.visitSeq (.bitVecPieces p)

/-! ### ValueDef's Deserializer impl

Every method dispatches on the actual shape via the
`delegate_except_bitseq!` macro: the three inner types forward to their
own impls above, and the `BitSequence` arm is handled here. -/

/-- `ValueDef::deserialize_any`: a bit sequence is pulled apart into its
pieces and deserialized from those; everything else delegates. -/
def ValueDef.deserialize_any {T α : Type} (v : ValueDef T) (visitor : Visitor T α) :
    Except Error α :=
  match v with
  | .bitSequence seq => do
    let pieces ← BitVecPieces.new seq
    pieces.deserialize_any visitor
  | .composite c => c.deserialize_any visitor
  | .variant vr => vr.deserialize_any visitor
  | .primitive prim => prim.deserialize_any visitor

/-- `ValueDef::deserialize_newtype_struct`. -/
def ValueDef.deserialize_newtype_struct {T α : Type} (v : ValueDef T) (name : String)
    (visitor : Visitor T α) : Except Error α :=
  match v with
  | .bitSequence _ =>
    .error (Error.from_str "Cannot deserialize BitSequence into a newtype struct")
  | .composite c => c.deserialize_newtype_struct name visitor
  | .variant vr => vr.deserialize_newtype_struct name visitor
  | .primitive prim => prim.deserialize_newtype_struct name visitor

/-- `ValueDef::deserialize_tuple`. -/
def ValueDef.deserialize_tuple {T α : Type} (v : ValueDef T) (len : Nat)
    (visitor : Visitor T α) : Except Error α :=
  match v with
  | .bitSequence _ =>
    .error (Error.from_str "Cannot deserialize BitSequence into a tuple")
  | .composite c => c.deserialize_tuple len visitor
  | .variant vr => vr.deserialize_tuple len visitor
  | .primitive prim => prim.deserialize_any visitor

/-- `ValueDef::deserialize_tuple_struct`. -/
def ValueDef.deserialize_tuple_struct {T α : Type} (v : ValueDef T) (name : String)
    (len : Nat) (visitor : Visitor T α) : Except Error α :=
  match v with
  | .bitSequence _ =>
    .error (Error.from_str "Cannot deserialize BitSequence into a tuple struct")
  | .composite c => c.deserialize_tuple_struct name len visitor
  | .variant vr => vr.deserialize_tuple_struct name len visitor
  | .primitive prim => prim.deserialize_any visitor

/-- `ValueDef::deserialize_unit`. -/
def ValueDef.deserialize_unit {T α : Type} (v : ValueDef T) (visitor : Visitor T α) :
    Except Error α :=
  match v with
  | .bitSequence _ =>
    .error (Error.from_str "Cannot deserialize BitSequence into a ()")
  | .composite c => c.deserialize_unit visitor
  | .variant vr => vr.deserialize_unit visitor
  | .primitive prim => prim.deserialize_any visitor

/-- `ValueDef::deserialize_unit_struct`. -/
def ValueDef.deserialize_unit_struct {T α : Type} (v : ValueDef T) (name : String)
    (visitor : Visitor T α) : Except Error α :=
  match v with
  | .bitSequence _ =>
    .error (Error.from_string ("Cannot deserialize BitSequence into the unit struct " ++ name))
  | .composite c => c.deserialize_unit_struct name visitor
  | .variant vr => vr.deserialize_unit_struct name visitor
  | .primitive prim => prim.deserialize_any visitor

/-- `ValueDef::deserialize_enum`. -/
def ValueDef.deserialize_enum {T α : Type} (v : ValueDef T) (name : String)
    (variants : List String) (visitor : Visitor T α) : Except Error α :=
  match v with
  | .bitSequence _ =>
    .error (Error.from_string ("Cannot deserialize BitSequence into the enum " ++ name))
  | .composite c => c.deserialize_any visitor
  | .variant vr => vr.deserialize_enum name variants visitor
  | .primitive prim => prim.deserialize_any visitor

/-- `ValueDef::deserialize_bytes`. -/
def ValueDef.deserialize_bytes {T α : Type} (v : ValueDef T) (visitor : Visitor T α) :
    Except Error α :=
  match v with
  | .bitSequence _ =>
    .error (Error.from_str "Cannot deserialize BitSequence into raw bytes")
  | .composite c => c.deserialize_bytes visitor
  | .variant vr => vr.deserialize_any visitor
  | .primitive prim => prim.deserialize_any visitor

/-- `ValueDef::deserialize_byte_buf`. -/
def ValueDef.deserialize_byte_buf {T α : Type} (v : ValueDef T) (visitor : Visitor T α) :
    Except Error α :=
  match v with
  | .bitSequence _ =>
    .error (Error.from_str "Cannot deserialize BitSequence into raw bytes")
  | .composite c => c.deserialize_byte_buf visitor
  | .variant vr => vr.deserialize_any visitor
  | .primitive prim => prim.deserialize_any visitor

/-- `ValueDef::deserialize_seq`: rejected outright for a bit sequence. -/
def ValueDef.deserialize_seq {T α : Type} (v : ValueDef T) (visitor : Visitor T α) :
    Except Error α :=
  match v with
  | .bitSequence _ =>
    .error (Error.from_str "Cannot deserialize BitSequence into a sequence")
  | .composite c => c.deserialize_seq visitor
  | .variant vr => vr.deserialize_seq visitor
  | .primitive prim => prim.deserialize_any visitor

/-- `ValueDef::deserialize_map`. -/
def ValueDef.deserialize_map {T α : Type} (v : ValueDef T) (visitor : Visitor T α) :
    Except Error α :=
  match v with
  | .bitSequence _ =>
    .error (Error.from_str "Cannot deserialize BitSequence into a map")
  | .composite c => c.deserialize_map visitor
  | .variant vr => vr.deserialize_map visitor
  | .primitive prim => prim.deserialize_any visitor

/-- `ValueDef` forwards the `struct` hint to `deserialize_any` (its
`forward_to_deserialize_any!` list: scalars, `option`, `struct`,
`identifier`, `ignored_any`); so a struct hint reaches a bit sequence's
pieces rather than being rejected. -/
def ValueDef.deserialize_struct {T α : Type} (v : ValueDef T) (_name : String)
    (_fields : List String) (visitor : Visitor T α) : Except Error α :=
  v.deserialize_any visitor

/-- `ValueDef` forwards the scalar `bool` hint to `deserialize_any`. -/
def ValueDef.deserialize_bool {T α : Type} (v : ValueDef T) (visitor : Visitor T α) :
    Except Error α :=
  v.deserialize_any visitor

/-- `ValueDef` forwards the scalar `u8` hint to `deserialize_any`. -/
def ValueDef.deserialize_u8 {T α : Type} (v : ValueDef T) (visitor : Visitor T α) :
    Except Error α :=
  v.deserialize_any visitor

/-- `ValueDef` forwards the `string` hint to `deserialize_any`. -/
def ValueDef.deserialize_string {T α : Type} (v : ValueDef T) (visitor : Visitor T α) :
    Except Error α :=
  v.deserialize_any visitor

/-! ### Value's Deserializer impl: ignore the context and forward to the
shape (the `deserialize_x!` macro in `deserializer.rs`). -/

/-- `Value`'s `deserialize_any` forwards to its shape. -/
def Value.deserialize_any {T α : Type} (v : Value T) (visitor : Visitor T α) :
    Except Error α :=
  v.value.deserialize_any visitor

/-- `Value`'s `deserialize_bool` forwards to its shape. -/
def Value.deserialize_bool {T α : Type} (v : Value T) (visitor : Visitor T α) :
    Except Error α :=
  v.value.deserialize_bool visitor

/-- `Value`'s `deserialize_u8` forwards to its shape. -/
def Value.deserialize_u8 {T α : Type} (v : Value T) (visitor : Visitor T α) :
    Except Error α :=
  v.value.deserialize_u8 visitor

/-- `Value`'s `deserialize_string` forwards to its shape. -/
def Value.deserialize_string {T α : Type} (v : Value T) (visitor : Visitor T α) :
    Except Error α :=
  v.value.deserialize_string visitor

/-- `Value`'s `deserialize_tuple` forwards to its shape. -/
def Value.deserialize_tuple {T α : Type} (v : Value T) (len : Nat)
    (visitor : Visitor T α) : Except Error α :=
  v.value.deserialize_tuple len visitor

/-- `Value`'s `deserialize_struct` forwards to its shape. -/
def Value.deserialize_struct {T α : Type} (v : Value T) (name : String)
    (fields : List String) (visitor : Visitor T α) : Except Error α :=
  v.value.deserialize_struct name fields visitor

/-- `Value`'s `deserialize_byte_buf` forwards to its shape. -/
def Value.deserialize_byte_buf {T α : Type} (v : Value T) (visitor : Visitor T α) :
    Except Error α :=
  v.value.deserialize_byte_buf visitor

/-! ### Element deserializer dispatch

Seeds receive one of the closed set of deserializers; `u8`, `u64` and
byte-vector deserializers come from serde's `into_deserializer()` (a
`u8`/`u64` primitive deserializer hands its value to the matching visit
callback whatever the hint; a byte vector is a sequence of `u8`
deserializers). -/

/-- Dispatch `deserialize_any` over the closed set of element
deserializers. -/
def Deser.deserialize_any {T α : Type} (d : Deser T) (visitor : Visitor T α) :
    Except Error α :=
  match d with
  | .value v => v.deserialize_any visitor
  | .composite c => c.deserialize_any visitor
  | .variant v => v.deserialize_any visitor
  | .primitive p => p.deserialize_any visitor
  | .u8Deser n => visitor.visitU8 n
  | .u64Deser n => visitor.visitU64 n
  | .bytesDeser bs => visitor.visitSeq (.seqDeser (bs.map Deser.u8Deser))

/-- Every element deserializer in the closed set forwards the `string`
hint to its `deserialize_any` (the value model types via their
`forward_to_deserialize_any!` lists, the primitive ones by
construction). -/
def Deser.deserialize_string {T α : Type} (d : Deser T) (visitor : Visitor T α) :
    Except Error α :=
  d.deserialize_any visitor

/-- Every element deserializer in the closed set forwards the `bool`
hint to its `deserialize_any`. -/
def Deser.deserialize_bool {T α : Type} (d : Deser T) (visitor : Visitor T α) :
    Except Error α :=
  d.deserialize_any visitor

/-- Every element deserializer in the closed set forwards the `u8` hint
to its `deserialize_any`. -/
def Deser.deserialize_u8 {T α : Type} (d : Deser T) (visitor : Visitor T α) :
    Except Error α :=
  d.deserialize_any visitor

/-! ## Target-side visitors

The serde glue on the target side (derived `Deserialize` impls and the
standard library visitors) is not part of this repository; the concrete
visitors below are modelled from the spec (sections 4.2 and 6: a target
states which hints it requests and accepts the matching callbacks,
rejecting every other callback with a type error). -/

/-- Modelled from the spec: the base visitor that rejects every
callback, as serde's `Visitor` default methods do; concrete targets
override exactly the callbacks they accept. -/
def failVisitor {T α : Type} : Visitor T α where
  visitBool _ := .error (Error.from_str "invalid type")
  visitChar _ := .error (Error.from_str "invalid type")
  visitString _ := .error (Error.from_str "invalid type")
  visitU8 _ := .error (Error.from_str "invalid type")
  visitU16 _ := .error (Error.from_str "invalid type")
  visitU32 _ := .error (Error.from_str "invalid type")
  visitU64 _ := .error (Error.from_str "invalid type")
  visitU128 _ := .error (Error.from_str "invalid type")
  visitI8 _ := .error (Error.from_str "invalid type")
  visitI16 _ := .error (Error.from_str "invalid type")
  visitI32 _ := .error (Error.from_str "invalid type")
  visitI64 _ := .error (Error.from_str "invalid type")
  visitI128 _ := .error (Error.from_str "invalid type")
  visitBytes _ := .error (Error.from_str "invalid type")
  visitByteBuf _ := .error (Error.from_str "invalid type")
  visitUnit := .error (Error.from_str "invalid type")
  visitSeq _ := .error (Error.from_str "invalid type")
  visitMap _ := .error (Error.from_str "invalid type")
  visitEnum _ := .error (Error.from_str "invalid type")

/-- Modelled from the spec: the visitor of a `bool` target. -/
def boolVisitor {T : Type} : Visitor T Bool :=
  { failVisitor with visitBool := fun b => .ok b }

/-- Modelled from the spec: the visitor of a `u8` target. -/
def u8Visitor {T : Type} : Visitor T Nat :=
  { failVisitor with visitU8 := fun n => .ok n }

/-- Modelled from the spec: the visitor of a string target. -/
def stringVisitor {T : Type} : Visitor T String :=
  { failVisitor with visitString := fun s => .ok s }

/-- Modelled from the spec: the visitor of a byte-buffer target such as
`Vec<u8>` through `deserialize_byte_buf`. -/
def byteBufVisitor {T : Type} : Visitor T (List Nat) :=
  { failVisitor with visitByteBuf := fun bs => .ok bs }

/-- Pull exactly `n` elements out of a sequence access, in order,
failing if the access is exhausted early (serde's derived tuple visitors
report an invalid length in that case). -/
def SeqAcc.pull_elements {T : Type} : SeqAcc T → Nat → Except Error (List (Deser T))
  | _, 0 => .ok []
  | acc, Nat.succ n =>
    match acc.next_element with
    | (some d, acc2) => (acc2.pull_elements n).map (fun ds => d :: ds)
    | (none, _) => .error (Error.from_str "invalid length")

/-- Modelled from the spec: the visitor of a generic `n`-tuple target
that accepts each of its `n` elements as handed back, in order. -/
def tupleVisitor {T : Type} (len : Nat) : Visitor T (List (Deser T)) :=
  { failVisitor with visitSeq := fun acc => acc.pull_elements len }

/-- Modelled from the spec: the visitor of a `(String, bool)` 2-tuple
target; each element is decoded with the matching scalar seed. -/
def pairStrBoolVisitor {T : Type} : Visitor T (String × Bool) :=
  { failVisitor with
    visitSeq := fun acc =>
      match acc.next_element with
      | (some d1, acc2) => do
        let s ← d1.deserialize_string stringVisitor
        match acc2.next_element with
        | (some d2, _) => do
          let b ← d2.deserialize_bool boolVisitor
          .ok (s, b)
        | (none, _) => .error (Error.from_str "invalid length")
      | (none, _) => .error (Error.from_str "invalid length") }

/-- The 2-field struct target `{ a: u8, b: bool }` of the spec's
concrete scenario (`Foo` in the repository's tests). -/
structure Foo where
  a : Nat
  b : Bool
deriving DecidableEq, Repr

/-- Modelled from the spec: finishing a struct decode requires every
declared field to have been seen. -/
def fooFinish (a : Option Nat) (b : Option Bool) : Except Error Foo :=
  match a, b with
  | some av, some bv => .ok ⟨av, bv⟩
  | none, _ => .error (Error.from_str "missing field a")
  | _, none => .error (Error.from_str "missing field b")

/-- Modelled from the spec: the map-visiting loop of the derived
`Deserialize` for `Foo { a: u8, b: bool }`: each entry is matched by
name; `a` entries decode as `u8`, `b` entries as `bool`, duplicates are
rejected, and every other name is ignored (its value is skipped, which
always succeeds on a `Value` tree). -/
def fooVisitEntries {T : Type} :
    List (String × Value T) → Option Nat → Option Bool → Except Error Foo
  | [], a, b => fooFinish a b
  | (k, v) :: rest, a, b =>
    if k = "a" then
      match a with
      | some _ => .error (Error.from_str "duplicate field a")
      | none => do
        let n ← v.deserialize_u8 u8Visitor
        fooVisitEntries rest (some n) b
    else if k = "b" then
      match b with
      | some _ => .error (Error.from_str "duplicate field b")
      | none => do
        let bv ← v.deserialize_bool boolVisitor
        fooVisitEntries rest a (some bv)
    else
      fooVisitEntries rest a b

/-- Modelled from the spec: the visitor of the struct target
`Foo { a: u8, b: bool }`, driving the map access by field name. -/
def fooVisitor {T : Type} : Visitor T Foo :=
  { failVisitor with visitMap := fun entries => fooVisitEntries entries none none }

/-! ## Helper lemmas -/

/-- Pulling exactly as many elements as a list-backed sequence access
holds hands back the whole list in order. -/
theorem pull_elements_exact {T : Type} (items : List (Deser T)) :
    SeqAcc.pull_elements (.seqDeser items) items.length = .ok items := by
  induction items with
  | nil => rfl
  | cons d rest ih =>
    simp [SeqAcc.pull_elements, SeqAcc.next_element, ih, Except.map]

/-- The tuple length-mismatch error message produced by
`Composite::deserialize_tuple`. -/
def lengthMismatchError (actual expected : Nat) : Error :=
  Error.from_string
    ("Cannot deserialize composite of length " ++ toString actual ++
      " into tuple of length " ++ toString expected)

/-- C2: decoding an `Unnamed` composite of length `k` into a tuple
target of length `n` succeeds iff `k = n`, handing the elements over
positionally; when `k ≠ n` it fails with the length-mismatch error
naming both lengths.  The same exact-length rule applies to a `Named`
composite against a tuple hint, whose entries are used positionally with
names ignored. -/
theorem tuple_length_strictness {T : Type} (vs : List (Value T))
    (nvs : List (String × Value T)) (n : Nat) :
    (vs.length = n →
      Composite.deserialize_tuple (.unnamed vs) n (tupleVisitor n)
        = .ok (vs.map Deser.value)) ∧
    (vs.length ≠ n →
      Composite.deserialize_tuple (.unnamed vs) n (tupleVisitor n)
        = .error (lengthMismatchError vs.length n)) ∧
    (nvs.length = n →
      Composite.deserialize_tuple (.named nvs) n (tupleVisitor n)
        = .ok (nvs.map fun kv => Deser.value kv.2)) ∧
    (nvs.length ≠ n →
      Composite.deserialize_tuple (.named nvs) n (tupleVisitor n)
        = .error (lengthMismatchError nvs.length n)) := by
  refine ⟨fun h => ?_, fun h => ?_, fun h => ?_, fun h => ?_⟩
  · subst h
    have := pull_elements_exact (vs.map Deser.value)
    simp only [List.length_map] at this
    simp [Composite.deserialize_tuple, tupleVisitor, this]
  · simp [Composite.deserialize_tuple, lengthMismatchError, h]
  · subst h
    have := pull_elements_exact (nvs.map fun kv => Deser.value kv.2)
    simp only [List.length_map] at this
    simp [Composite.deserialize_tuple, tupleVisitor, this]
  · simp [Composite.deserialize_tuple, lengthMismatchError, h]

/-- Witness for C2 at concrete inputs: a 1-element unnamed composite
into a 1-tuple succeeds with that element, into a 2-tuple fails with the
length mismatch error naming 1 and 2; a 1-entry named composite into a
1-tuple succeeds positionally. -/
theorem tuple_length_strictness_witness :
    (Composite.deserialize_tuple (T := Unit) (.unnamed [.mk (.primitive (.u8 7)) ()]) 1
        (tupleVisitor 1) = .ok [Deser.value (.mk (.primitive (.u8 7)) ())]) ∧
    (Composite.deserialize_tuple (T := Unit) (.unnamed [.mk (.primitive (.u8 7)) ()]) 2
        (tupleVisitor 2) = .error (lengthMismatchError 1 2)) ∧
    (Composite.deserialize_tuple (T := Unit) (.named [("x", .mk (.primitive (.bool true)) ())]) 1
        (tupleVisitor 1) = .ok [Deser.value (.mk (.primitive (.bool true)) ())]) :=
  ⟨(tuple_length_strictness [.mk (.primitive (.u8 7)) ()] [] 1).1 rfl,
   (tuple_length_strictness [.mk (.primitive (.u8 7)) ()] [] 2).2.1 (by decide),
   (tuple_length_strictness [] [("x", .mk (.primitive (.bool true)) ())] 1).2.2.1 rfl⟩

/-- An entry whose value is a `u8` primitive decodes as `u8`. -/
theorem value_deserialize_u8_prim {T : Type} (va : Nat) (ca : T) :
    Value.deserialize_u8 (.mk (.primitive (.u8 va)) ca) u8Visitor = .ok va := rfl

/-- An entry whose value is a `bool` primitive decodes as `bool`. -/
theorem value_deserialize_bool_prim {T : Type} (vb : Bool) (cb : T) :
    Value.deserialize_bool (.mk (.primitive (.bool vb)) cb) boolVisitor = .ok vb := rfl

/-- Consuming an `a` entry records its `u8` payload in the field state. -/
theorem fooVisitEntries_cons_a {T : Type} (va : Nat) (ca : T)
    (l : List (String × Value T)) (b0 : Option Bool) :
    fooVisitEntries (("a", .mk (.primitive (.u8 va)) ca) :: l) none b0
      = fooVisitEntries l (some va) b0 := rfl

/-- Consuming a `b` entry records its `bool` payload in the field
state. -/
theorem fooVisitEntries_cons_b {T : Type} (vb : Bool) (cb : T)
    (l : List (String × Value T)) (a0 : Option Nat) :
    fooVisitEntries (("b", .mk (.primitive (.bool vb)) cb) :: l) a0 none
      = fooVisitEntries l a0 (some vb) := rfl

/-- Entries whose names are neither `a` nor `b` are skipped by the `Foo`
field loop. -/
theorem fooVisitEntries_cons_other {T : Type} (k : String) (v : Value T)
    (l : List (String × Value T)) (a0 : Option Nat) (b0 : Option Bool)
    (hka : k ≠ "a") (hkb : k ≠ "b") :
    fooVisitEntries ((k, v) :: l) a0 b0 = fooVisitEntries l a0 b0 := by
  simp [fooVisitEntries, hka, hkb]

/-- A run of entries avoiding both declared names leaves the `Foo` field
loop state untouched. -/
theorem fooVisitEntries_skip {T : Type} (l : List (String × Value T))
    (a0 : Option Nat) (b0 : Option Bool)
    (h : ∀ e ∈ l, e.1 ≠ "a" ∧ e.1 ≠ "b") :
    fooVisitEntries l a0 b0 = fooFinish a0 b0 := by
  induction l with
  | nil => rfl
  | cons e rest ih =>
    obtain ⟨k, v⟩ := e
    have he := h (k, v) (List.mem_cons_self _ _)
    rw [fooVisitEntries_cons_other k v rest a0 b0 he.1 he.2]
    exact ih (fun e hm => h e (List.mem_cons_of_mem _ hm))

/-- After the `a` field has been seen, a `b` entry surrounded by
ignorable entries completes the `Foo` decode. -/
theorem fooVisitEntries_after_a {T : Type} (mid post : List (String × Value T))
    (va : Nat) (vb : Bool) (cb : T)
    (hmid : ∀ e ∈ mid, e.1 ≠ "a" ∧ e.1 ≠ "b")
    (hpost : ∀ e ∈ post, e.1 ≠ "a" ∧ e.1 ≠ "b") :
    fooVisitEntries (mid ++ ("b", .mk (.primitive (.bool vb)) cb) :: post) (some va) none
      = .ok ⟨va, vb⟩ := by
  induction mid with
  | nil =>
    rw [List.nil_append, fooVisitEntries_cons_b,
      fooVisitEntries_skip post (some va) (some vb) hpost]
    rfl
  | cons e rest ih =>
    obtain ⟨k, v⟩ := e
    have he := hmid (k, v) (List.mem_cons_self _ _)
    rw [List.cons_append, fooVisitEntries_cons_other k v _ _ _ he.1 he.2]
    exact ih (fun e hm => hmid e (List.mem_cons_of_mem _ hm))

/-- After the `b` field has been seen, an `a` entry surrounded by
ignorable entries completes the `Foo` decode. -/
theorem fooVisitEntries_after_b {T : Type} (mid post : List (String × Value T))
    (va : Nat) (vb : Bool) (ca : T)
    (hmid : ∀ e ∈ mid, e.1 ≠ "a" ∧ e.1 ≠ "b")
    (hpost : ∀ e ∈ post, e.1 ≠ "a" ∧ e.1 ≠ "b") :
    fooVisitEntries (mid ++ ("a", .mk (.primitive (.u8 va)) ca) :: post) none (some vb)
      = .ok ⟨va, vb⟩ := by
  induction mid with
  | nil =>
    rw [List.nil_append, fooVisitEntries_cons_a,
      fooVisitEntries_skip post (some va) (some vb) hpost]
    rfl
  | cons e rest ih =>
    obtain ⟨k, v⟩ := e
    have he := hmid (k, v) (List.mem_cons_self _ _)
    rw [List.cons_append, fooVisitEntries_cons_other k v _ _ _ he.1 he.2]
    exact ih (fun e hm => hmid e (List.mem_cons_of_mem _ hm))

/-- The full `Foo` field loop on a list holding one `a` entry (a `u8`)
and one `b` entry (a `bool`), in either order, with all other entries
ignorable. -/
theorem fooVisitEntries_complete {T : Type} (pre mid post : List (String × Value T))
    (va : Nat) (vb : Bool) (ca cb : T)
    (hpre : ∀ e ∈ pre, e.1 ≠ "a" ∧ e.1 ≠ "b")
    (hmid : ∀ e ∈ mid, e.1 ≠ "a" ∧ e.1 ≠ "b")
    (hpost : ∀ e ∈ post, e.1 ≠ "a" ∧ e.1 ≠ "b") :
    fooVisitEntries
        (pre ++ ("a", .mk (.primitive (.u8 va)) ca) ::
          (mid ++ ("b", .mk (.primitive (.bool vb)) cb) :: post)) none none
      = .ok ⟨va, vb⟩ ∧
    fooVisitEntries
        (pre ++ ("b", .mk (.primitive (.bool vb)) cb) ::
          (mid ++ ("a", .mk (.primitive (.u8 va)) ca) :: post)) none none
      = .ok ⟨va, vb⟩ := by
  induction pre with
  | nil =>
    constructor
    · rw [List.nil_append, fooVisitEntries_cons_a]
      exact fooVisitEntries_after_a mid post va vb cb hmid hpost
    · rw [List.nil_append, fooVisitEntries_cons_b]
      exact fooVisitEntries_after_b mid post va vb ca hmid hpost
  | cons e rest ih =>
    obtain ⟨k, v⟩ := e
    have he := hpre (k, v) (List.mem_cons_self _ _)
    have ih2 := ih (fun e hm => hpre e (List.mem_cons_of_mem _ hm))
    constructor
    · rw [List.cons_append, fooVisitEntries_cons_other k v _ _ _ he.1 he.2]
      exact ih2.1
    · rw [List.cons_append, fooVisitEntries_cons_other k v _ _ _ he.1 he.2]
      exact ih2.2

/-- C6: decoding a `Named` composite into the 2-field struct target
`{ a: u8, b: bool }` matches entries by field name: whichever order the
`a` and `b` entries appear in (and whatever ignorable entries surround
them), the result is the same struct built from the named values. -/
theorem named_struct_name_matching {T : Type} (pre mid post : List (String × Value T))
    (va : Nat) (vb : Bool) (ca cb : T)
    (h : ∀ e ∈ pre ++ mid ++ post, e.1 ≠ "a" ∧ e.1 ≠ "b") :
    Composite.deserialize_struct
        (.named (pre ++ ("a", .mk (.primitive (.u8 va)) ca) ::
          (mid ++ ("b", .mk (.primitive (.bool vb)) cb) :: post)))
        "Foo" ["a", "b"] fooVisitor = .ok ⟨va, vb⟩ ∧
    Composite.deserialize_struct
        (.named (pre ++ ("b", .mk (.primitive (.bool vb)) cb) ::
          (mid ++ ("a", .mk (.primitive (.u8 va)) ca) :: post)))
        "Foo" ["a", "b"] fooVisitor = .ok ⟨va, vb⟩ := by
  have hpre : ∀ e ∈ pre, e.1 ≠ "a" ∧ e.1 ≠ "b" := by
    intro e hm
    exact h e (by simp [hm])
  have hmid : ∀ e ∈ mid, e.1 ≠ "a" ∧ e.1 ≠ "b" := by
    intro e hm
    exact h e (by simp [hm])
  have hpost : ∀ e ∈ post, e.1 ≠ "a" ∧ e.1 ≠ "b" := by
    intro e hm
    exact h e (by simp [hm])
  exact fooVisitEntries_complete pre mid post va vb ca cb hpre hmid hpost

/-- Witness for C6 at the spec's concrete input:
`Named [(b, Bool true), (a, U8 123)]` decoded into `{ a: u8, b: bool }`
yields `{ a := 123, b := true }` even though the entries are in the
opposite order to the declared fields. -/
theorem named_struct_name_matching_witness :
    Composite.deserialize_struct (T := Unit)
        (.named [("b", .mk (.primitive (.bool true)) ()),
          ("a", .mk (.primitive (.u8 123)) ())])
        "Foo" ["a", "b"] fooVisitor = .ok ⟨123, true⟩ :=
  (named_struct_name_matching [] [] [] 123 true () ()
    (by intro e hm; simp at hm)).2

/-- C7: a `Named` composite holding strictly more entries than the
2-field struct target declares still decodes successfully, using only
the declared `a` and `b` entries; the surplus named entries are ignored
rather than causing an error. -/
theorem named_struct_surplus_tolerance {T : Type} (pre mid post : List (String × Value T))
    (va : Nat) (vb : Bool) (ca cb : T)
    (hsurplus : 0 < pre.length + mid.length + post.length)
    (h : ∀ e ∈ pre ++ mid ++ post, e.1 ≠ "a" ∧ e.1 ≠ "b") :
    2 < (Composite.named (pre ++ ("a", .mk (.primitive (.u8 va)) ca) ::
          (mid ++ ("b", .mk (.primitive (.bool vb)) cb) :: post))).len ∧
    Composite.deserialize_struct
        (.named (pre ++ ("a", .mk (.primitive (.u8 va)) ca) ::
          (mid ++ ("b", .mk (.primitive (.bool vb)) cb) :: post)))
        "Foo" ["a", "b"] fooVisitor = .ok ⟨va, vb⟩ := by
  constructor
  · simp only [Composite.len, List.length_append, List.length_cons]
    omega
  · have hpre : ∀ e ∈ pre, e.1 ≠ "a" ∧ e.1 ≠ "b" := by
      intro e hm
      exact h e (by simp [hm])
    have hmid : ∀ e ∈ mid, e.1 ≠ "a" ∧ e.1 ≠ "b" := by
      intro e hm
      exact h e (by simp [hm])
    have hpost : ∀ e ∈ post, e.1 ≠ "a" ∧ e.1 ≠ "b" := by
      intro e hm
      exact h e (by simp [hm])
    exact (fooVisitEntries_complete pre mid post va vb ca cb hpre hmid hpost).1

/-- Witness for C7 at a concrete input: a 4-entry named composite with
surplus entries `foo` and `bar` still decodes into the 2-field struct,
ignoring the surplus. -/
theorem named_struct_surplus_tolerance_witness :
    2 < (Composite.named (T := Unit)
          [("foo", .mk (.primitive (.u8 40)) ()),
            ("a", .mk (.primitive (.u8 123)) ()),
            ("bar", .mk (.primitive (.bool false)) ()),
            ("b", .mk (.primitive (.bool true)) ())]).len ∧
    Composite.deserialize_struct (T := Unit)
        (.named [("foo", .mk (.primitive (.u8 40)) ()),
          ("a", .mk (.primitive (.u8 123)) ()),
          ("bar", .mk (.primitive (.bool false)) ()),
          ("b", .mk (.primitive (.bool true)) ())])
        "Foo" ["a", "b"] fooVisitor = .ok ⟨123, true⟩ :=
  named_struct_surplus_tolerance
    [("foo", .mk (.primitive (.u8 40)) ())]
    [("bar", .mk (.primitive (.bool false)) ())]
    [] 123 true () () (by decide)
    (by intro e hm; simp at hm; rcases hm with h1 | h1 <;> simp [h1])

/-! ## The all-bytes requirement -/

/-- Does a value hold a `u8` primitive? -/
def isU8 {T : Type} (v : Value T) : Bool :=
  match v.value with
  | .primitive (.u8 _) => true
  | _ => false

/-- The `u8` payloads of a value list, in order. -/
def u8PayloadsOf {T : Type} : List (Value T) → List Nat
  | [] => []
  | v :: rest =>
    match v.value with
    | .primitive (.u8 b) => b :: u8PayloadsOf rest
    | _ => u8PayloadsOf rest

/-- The error produced when a composite that is not all `u8`s is decoded
into a byte buffer. -/
def notAllBytesError : Error :=
  Error.from_str "Cannot deserialize composite that is not entirely U8\x27s into bytes"

/-- A value that passes the `u8` check holds a `u8` payload. -/
theorem isU8_exists {T : Type} (v : Value T) (h : isU8 v = true) :
    ∃ b, v.value = .primitive (.u8 b) := by
  unfold isU8 at h
  split at h
  · next b heq => exact ⟨b, heq⟩
  · exact absurd h (by simp)

/-- Byte collection succeeds on an all-`u8` unnamed list, yielding the
payloads in order. -/
theorem collectU8sUnnamed_all {T : Type} :
    ∀ (vs : List (Value T)), vs.all isU8 = true →
      collectU8sUnnamed vs = .ok (u8PayloadsOf vs)
  | [], _ => rfl
  | v :: rest, h => by
    simp only [List.all_cons, Bool.and_eq_true] at h
    obtain ⟨b, hb⟩ := isU8_exists v h.1
    have ih := collectU8sUnnamed_all rest h.2
    simp [collectU8sUnnamed, u8PayloadsOf, hb, ih, Except.map]

/-- Byte collection fails with the all-bytes error as soon as any
element is not a `u8`. -/
theorem collectU8sUnnamed_not_all {T : Type} :
    ∀ (vs : List (Value T)), vs.all isU8 = false →
      collectU8sUnnamed vs = .error notAllBytesError
  | [], h => by simp at h
  | v :: rest, h => by
    by_cases hv : isU8 v = true
    · have hrest : rest.all isU8 = false := by
        simp only [List.all_cons, hv, Bool.true_and] at h
        exact h
      obtain ⟨b, hb⟩ := isU8_exists v hv
      have ih := collectU8sUnnamed_not_all rest hrest
      simp [collectU8sUnnamed, hb, ih, Except.map, notAllBytesError]
    · obtain ⟨vd, c⟩ := v
      cases vd with
      | primitive p =>
        cases p with
        | u8 b => exact absurd rfl hv
        | bool x => rfl
        | char x => rfl
        | str x => rfl
        | u16 x => rfl
        | u32 x => rfl
        | u64 x => rfl
        | u128 x => rfl
        | u256 x => rfl
        | i8 x => rfl
        | i16 x => rfl
        | i32 x => rfl
        | i64 x => rfl
        | i128 x => rfl
        | i256 x => rfl
      | composite c2 => rfl
      | variant vr => rfl
      | bitSequence bs => rfl

/-- The named byte collection ignores names: it agrees with the unnamed
collection over the entry values. -/
theorem collectU8sNamed_map {T : Type} :
    ∀ (nvs : List (String × Value T)),
      collectU8sNamed nvs = collectU8sUnnamed (nvs.map Prod.snd)
  | [] => rfl
  | (k, v) :: rest => by
    have ih := collectU8sNamed_map rest
    obtain ⟨vd, c⟩ := v
    cases vd with
    | primitive p =>
      cases p <;> simp [collectU8sNamed, collectU8sUnnamed, Value.value, ih]
    | composite c2 => rfl
    | variant vr => rfl
    | bitSequence bs => rfl

/-- C5: a composite (`Named` or `Unnamed`) decodes into a byte-buffer
target iff every element is a `Primitive::U8`: on success the buffer
holds the payload bytes in element order, and a single non-`u8` element
anywhere fails with the all-bytes error. -/
theorem composite_byte_buf_all_u8 {T : Type} (vs : List (Value T))
    (nvs : List (String × Value T)) :
    (vs.all isU8 = true →
      Composite.deserialize_byte_buf (.unnamed vs) byteBufVisitor
        = .ok (u8PayloadsOf vs)) ∧
    (vs.all isU8 = false →
      Composite.deserialize_byte_buf (.unnamed vs) byteBufVisitor
        = .error notAllBytesError) ∧
    ((nvs.map Prod.snd).all isU8 = true →
      Composite.deserialize_byte_buf (.named nvs) byteBufVisitor
        = .ok (u8PayloadsOf (nvs.map Prod.snd))) ∧
    ((nvs.map Prod.snd).all isU8 = false →
      Composite.deserialize_byte_buf (.named nvs) byteBufVisitor
        = .error notAllBytesError) := by
  refine ⟨fun h => ?_, fun h => ?_, fun h => ?_, fun h => ?_⟩
  · simp only [Composite.deserialize_byte_buf, collectU8sUnnamed_all vs h]
    rfl
  · simp only [Composite.deserialize_byte_buf, collectU8sUnnamed_not_all vs h]
    rfl
  · simp only [Composite.deserialize_byte_buf, collectU8sNamed_map nvs,
      collectU8sUnnamed_all _ h]
    rfl
  · simp only [Composite.deserialize_byte_buf, collectU8sNamed_map nvs,
      collectU8sUnnamed_not_all _ h]
    rfl

/-- Witness for C5 at the spec's concrete inputs:
`Unnamed [U8 1, U8 2, U8 3]` yields the byte buffer `[1, 2, 3]`, and
`Unnamed [Str a, Bool true]` fails with the all-bytes error. -/
theorem composite_byte_buf_all_u8_witness :
    (Composite.deserialize_byte_buf (T := Unit)
        (.unnamed [.mk (.primitive (.u8 1)) (), .mk (.primitive (.u8 2)) (),
          .mk (.primitive (.u8 3)) ()]) byteBufVisitor = .ok [1, 2, 3]) ∧
    (Composite.deserialize_byte_buf (T := Unit)
        (.unnamed [.mk (.primitive (.str "a")) (), .mk (.primitive (.bool true)) ()])
        byteBufVisitor = .error notAllBytesError) :=
  ⟨(composite_byte_buf_all_u8
      [.mk (.primitive (.u8 1)) (), .mk (.primitive (.u8 2)) (), .mk (.primitive (.u8 3)) ()]
      []).1 (by decide),
   (composite_byte_buf_all_u8
      [.mk (.primitive (.str "a")) (), .mk (.primitive (.bool true)) ()]
      []).2.1 (by decide)⟩

/-- C9: each `Primitive` variant supplies its payload to exactly the
matching scalar callback, and the 256-bit variants supply their 32 raw
bytes to the byte-sequence callback; no integer widening happens at this
layer (each width reaches only its own callback). -/
theorem primitive_exact_callbacks {T α : Type} (vis : Visitor T α)
    (b : Bool) (ch : Char) (s : String) (n8 n16 n32 n64 n128 : Nat)
    (m8 m16 m32 m64 m128 : Int) (w z : { l : List Nat // l.length = 32 }) :
    Primitive.deserialize_any (T := T) (.bool b) vis = vis.visitBool b ∧
    Primitive.deserialize_any (T := T) (.char ch) vis = vis.visitChar ch ∧
    Primitive.deserialize_any (T := T) (.str s) vis = vis.visitString s ∧
    Primitive.deserialize_any (T := T) (.u8 n8) vis = vis.visitU8 n8 ∧
    Primitive.deserialize_any (T := T) (.u16 n16) vis = vis.visitU16 n16 ∧
    Primitive.deserialize_any (T := T) (.u32 n32) vis = vis.visitU32 n32 ∧
    Primitive.deserialize_any (T := T) (.u64 n64) vis = vis.visitU64 n64 ∧
    Primitive.deserialize_any (T := T) (.u128 n128) vis = vis.visitU128 n128 ∧
    Primitive.deserialize_any (T := T) (.i8 m8) vis = vis.visitI8 m8 ∧
    Primitive.deserialize_any (T := T) (.i16 m16) vis = vis.visitI16 m16 ∧
    Primitive.deserialize_any (T := T) (.i32 m32) vis = vis.visitI32 m32 ∧
    Primitive.deserialize_any (T := T) (.i64 m64) vis = vis.visitI64 m64 ∧
    Primitive.deserialize_any (T := T) (.i128 m128) vis = vis.visitI128 m128 ∧
    Primitive.deserialize_any (T := T) (.u256 w) vis = vis.visitBytes w.val ∧
    Primitive.deserialize_any (T := T) (.i256 z) vis = vis.visitBytes z.val ∧
    w.val.length = 32 ∧ z.val.length = 32 :=
  ⟨rfl, rfl, rfl, rfl, rfl, rfl, rfl, rfl, rfl, rfl, rfl, rfl, rfl, rfl, rfl,
   w.property, z.property⟩

/-- C8 counterexample: the `any` hint on a `Variant` does not forward to
its fields composite: with the 2-tuple target's visitor, `any` on
`Variant Foo (Unnamed [Str hello, Bool true])` presents the value as an
enum (which this visitor rejects), while forwarding to the fields
composite would have produced `(hello, true)`. -/
theorem variant_any_not_forwarded :
    Variant.deserialize_any (T := Unit)
        (.mk "Foo" (.unnamed [.mk (.primitive (.str "hello")) (),
          .mk (.primitive (.bool true)) ()])) pairStrBoolVisitor
      = .error (Error.from_str "invalid type") ∧
    Composite.deserialize_any (T := Unit)
        (.unnamed [.mk (.primitive (.str "hello")) (),
          .mk (.primitive (.bool true)) ()]) pairStrBoolVisitor
      = .ok ("hello", true) :=
  ⟨rfl, rfl⟩

/-- C8 (amended): a `Variant` satisfies the `seq` and `tuple` hints by
forwarding directly to its fields composite, discarding the case name
(in particular `Variant Foo (Unnamed [Str hello, Bool true])` into a
2-tuple target yields `(hello, true)`); the `any` hint instead presents
the variant as an enum via the enum callback, without discarding the
name. -/
theorem variant_forwards_to_fields {T α : Type} (v : Variant T) (len : Nat)
    (vis : Visitor T α) :
    v.deserialize_tuple len vis = v.values.deserialize_tuple len vis ∧
    v.deserialize_seq vis = v.values.deserialize_seq vis ∧
    v.deserialize_any vis = vis.visitEnum v ∧
    Variant.deserialize_tuple (T := Unit)
        (.mk "Foo" (.unnamed [.mk (.primitive (.str "hello")) (),
          .mk (.primitive (.bool true)) ()])) 2 pairStrBoolVisitor
      = .ok ("hello", true) :=
  ⟨rfl, rfl, rfl, rfl⟩

/-! ## Bit sequence claims -/

/-- Serializing the data bytes with the cursor on the `data` field
always succeeds and appends the bytes in order. -/
theorem serializeDataBytes_data :
    ∀ (bytes : List Nat) (s : BitVecSerializer),
      s.current_field = some PieceField.data →
      serializeDataBytes bytes s = .ok { s with data := s.data ++ bytes }
  | [], s, _ => by simp [serializeDataBytes]
  | b :: rest, s, h => by
    have hu8 : s.serialize_u8 b = .ok { s with data := s.data ++ [b] } := by
      simp [BitVecSerializer.serialize_u8, h]
    have ih := serializeDataBytes_data rest { s with data := s.data ++ [b] } h
    simp only [serializeDataBytes, hu8]
    show serializeDataBytes rest { s with data := s.data ++ [b] } = _
    rw [ih]
    simp [List.append_assoc]

/-- Running the (spec-modelled) bit-vector serialization against the
serializer state machine always gathers all three pieces, so
`BitVecPieces::new` succeeds on every bit sequence, positioned at the
`head` field. -/
theorem bit_vec_pieces_new_ok (bv : BitSequence) :
    BitVecPieces.new bv
      = .ok ⟨bv.head, bv.bits.length, bv.dataBytes, some PieceField.head⟩ := by
  have h1 : bv.serialize ⟨none, none, [], none⟩
      = serializeDataBytes bv.dataBytes
          ⟨some bv.head, some bv.bits.length, [], some PieceField.data⟩ >>=
        BitVecSerializer.serialize_end := rfl
  have hd := serializeDataBytes_data bv.dataBytes
    ⟨some bv.head, some bv.bits.length, [], some PieceField.data⟩ rfl
  unfold BitVecPieces.new
  rw [h1, hd]
  rfl

/-- C10: for every bit sequence, `BitVecPieces::new` succeeds — the
serialization always records the head byte, the bit count and the
backing data bytes, so the error branch about failing to gather the
pieces is unreachable — and the returned pieces start positioned at the
`head` field. -/
theorem bit_vec_pieces_new_total (bv : BitSequence) :
    BitVecPieces.new bv
      = .ok ⟨bv.head, bv.bits.length, bv.dataBytes, some PieceField.head⟩ :=
  bit_vec_pieces_new_ok bv

/-- C3 counterexample: an explicit `seq` hint on a bit-sequence value is
rejected with an error, not answered with the three pieces — here the
sequence-shaped 3-tuple target's visitor never receives any element. -/
theorem bitseq_seq_hint_rejected :
    ValueDef.deserialize_seq (T := Unit) (.bitSequence ⟨0, [true]⟩) (tupleVisitor 3)
      = .error (Error.from_str "Cannot deserialize BitSequence into a sequence") := rfl

/-- C3 (amended): a bit-sequence value decoded through the generic `any`
hint (the route sequence-consuming targets actually reach it by, since
the explicit `seq` hint is rejected) hands the visitor a 3-element
sequence access yielding exactly, in strict order, the one-byte bit
offset `head`, the 64-bit total bit count `bits` and the backing byte
buffer `data`, one at a time; after the third element the access yields
nothing further. -/
theorem bit_sequence_three_pieces {T α : Type} (b : BitSequence) (vis : Visitor T α) :
    ValueDef.deserialize_any (.bitSequence b) vis
      = vis.visitSeq (.bitVecPieces ⟨b.head, b.bits.length, b.dataBytes, some .head⟩) ∧
    SeqAcc.next_element (T := T)
        (.bitVecPieces ⟨b.head, b.bits.length, b.dataBytes, some .head⟩)
      = (some (.u8Deser b.head),
          .bitVecPieces ⟨b.head, b.bits.length, b.dataBytes, some .bits⟩) ∧
    SeqAcc.next_element (T := T)
        (.bitVecPieces ⟨b.head, b.bits.length, b.dataBytes, some .bits⟩)
      = (some (.u64Deser b.bits.length),
          .bitVecPieces ⟨b.head, b.bits.length, b.dataBytes, some .data⟩) ∧
    SeqAcc.next_element (T := T)
        (.bitVecPieces ⟨b.head, b.bits.length, b.dataBytes, some .data⟩)
      = (some (.bytesDeser b.dataBytes),
          .bitVecPieces ⟨b.head, b.bits.length, [], none⟩) ∧
    SeqAcc.next_element (T := T) (.bitVecPieces ⟨b.head, b.bits.length, [], none⟩)
      = (none, .bitVecPieces ⟨b.head, b.bits.length, [], none⟩) := by
  refine ⟨?_, rfl, rfl, rfl, rfl⟩
  simp only [ValueDef.deserialize_any, bit_vec_pieces_new_ok]
  rfl

/-- C4 counterexample: the `struct` hint on a bit-sequence value is not
rejected: it forwards to `deserialize_any` and succeeds, handing a
sequence-accepting target the three pieces. -/
theorem bitseq_struct_hint_accepted :
    ValueDef.deserialize_struct (T := Unit) (.bitSequence ⟨0, [true]⟩) "BitSeq"
        ["head", "bits", "data"] (tupleVisitor 3)
      = .ok [.u8Deser 0, .u64Deser 1, .bytesDeser [1]] := rfl

/-- C4 (amended): for a bit-sequence value the `bytes`, `byte_buf`,
`tuple`, `tuple_struct`, `map`, `seq`, `unit`, `unit_struct`, `enum` and
`newtype_struct` hints are all rejected with shape-specific errors; the
`struct` hint however (like the scalar hints) is forwarded to the
generic `any` handling rather than rejected. -/
theorem bitseq_hint_rejections {T α : Type} (b : BitSequence) (vis : Visitor T α)
    (name : String) (fields : List String) (variants : List String) (len : Nat) :
    ValueDef.deserialize_bytes (.bitSequence b) vis
      = .error (Error.from_str "Cannot deserialize BitSequence into raw bytes") ∧
    ValueDef.deserialize_byte_buf (.bitSequence b) vis
      = .error (Error.from_str "Cannot deserialize BitSequence into raw bytes") ∧
    ValueDef.deserialize_tuple (.bitSequence b) len vis
      = .error (Error.from_str "Cannot deserialize BitSequence into a tuple") ∧
    ValueDef.deserialize_tuple_struct (.bitSequence b) name len vis
      = .error (Error.from_str "Cannot deserialize BitSequence into a tuple struct") ∧
    ValueDef.deserialize_map (.bitSequence b) vis
      = .error (Error.from_str "Cannot deserialize BitSequence into a map") ∧
    ValueDef.deserialize_seq (.bitSequence b) vis
      = .error (Error.from_str "Cannot deserialize BitSequence into a sequence") ∧
    ValueDef.deserialize_unit (.bitSequence b) vis
      = .error (Error.from_str "Cannot deserialize BitSequence into a ()") ∧
    ValueDef.deserialize_unit_struct (.bitSequence b) name vis
      = .error (Error.from_string
          ("Cannot deserialize BitSequence into the unit struct " ++ name)) ∧
    ValueDef.deserialize_enum (.bitSequence b) name variants vis
      = .error (Error.from_string
          ("Cannot deserialize BitSequence into the enum " ++ name)) ∧
    ValueDef.deserialize_newtype_struct (.bitSequence b) name vis
      = .error (Error.from_str "Cannot deserialize BitSequence into a newtype struct") ∧
    ValueDef.deserialize_struct (.bitSequence b) name fields vis
      = ValueDef.deserialize_any (.bitSequence b) vis :=
  ⟨rfl, rfl, rfl, rfl, rfl, rfl, rfl, rfl, rfl, rfl, rfl⟩
